import Mathlib

/-!
# Verification of the Orchids website-cloner job pipeline

The repository ships a Next.js frontend (`frontend/src/app/page.tsx`) driving a
FastAPI + Celery backend over three HTTP endpoints.  The backend's Job Store,
API Gateway, Synthesizer and Job Orchestrator are not part of the visible
sources, so they are modelled here from the specification; the frontend polling
loop and submit handler are embedded directly from `page.tsx`.
-/

/-! ## Backend data model (modelled from the spec) -/

/-- Modelled from the spec: closed tagged variant of job states,
`queued → running → {complete | error}` (spec §3, §4.6). -/
inductive JobStatus : Type
  | queued
  | running
  | complete
  | error
deriving DecidableEq, Repr

/-- A status is terminal when it is `complete` or `error` (spec §3). -/
def JobStatus.isTerminal : JobStatus → Bool
  | .complete => true
  | .error => true
  | _ => false

/-- Position of a status in the fixed order queued → running → terminal. -/
def JobStatus.rank : JobStatus → Nat
  | .queued => 0
  | .running => 1
  | .complete => 2
  | .error => 2

/-- Modelled from the spec: the Job record of the Job Store (spec §3):
status, integer progress, source url, and the two optional terminal fields. -/
structure Job : Type where
  status : JobStatus
  progress : Nat
  source_url : String
  error_detail : Option String
  result_ref : Option String
deriving DecidableEq, Repr

/-- Modelled from the spec: a job is created `(queued, progress=0)` with
neither terminal field populated (spec §3, §4.2). -/
def Job.create (url : String) : Job :=
  { status := .queued
    progress := 0
    source_url := url
    error_detail := none
    result_ref := none }

/-! ## Job Orchestrator state machine (modelled from the spec, §4.6) -/

/-- Modelled from the spec: one observable mutation of a job record by the
worker running its orchestration task (spec §4.6).  Transitions:
task pickup (queued → running, small nonzero progress), progress checkpoints
while running, failure of any stage (running → error with a non-empty
human-readable detail), and synthesis success (running → complete,
progress = 100, non-empty artifact persisted). -/
inductive JobStep : Job → Job → Prop where
  | pickup (j : Job) (p : Nat) :
      j.status = .queued → 0 < p → p ≤ 100 → j.progress ≤ p →
      JobStep j { j with status := .running, progress := p }
  | checkpoint (j : Job) (p : Nat) :
      j.status = .running → j.progress ≤ p → p ≤ 100 →
      JobStep j { j with progress := p }
  | fail (j : Job) (d : String) :
      j.status = .running → d ≠ "" →
      JobStep j { j with status := .error, error_detail := some d }
  | succeed (j : Job) (a : String) :
      j.status = .running → a ≠ "" →
      JobStep j { j with status := .complete, progress := 100, result_ref := some a }

/-- Zero or more orchestrator steps: what two successive status polls of the
same job can observe (the later poll sees a `Reaches`-successor of the
earlier record). -/
inductive Reaches : Job → Job → Prop where
  | refl (j : Job) : Reaches j j
  | tail {j k l : Job} : Reaches j k → JobStep k l → Reaches j l

/-- Well-formedness invariant of a job record, established at creation and
preserved by every orchestrator step. -/
def JobWF (j : Job) : Prop :=
  j.progress ≤ 100
  ∧ (j.status = .queued → j.progress = 0)
  ∧ (j.status = .complete → j.progress = 100)
  ∧ (j.error_detail.isSome ↔ j.status = .error)
  ∧ (j.result_ref.isSome ↔ j.status = .complete)
  ∧ (∀ d, j.error_detail = some d → d ≠ "")
  ∧ (∀ a, j.result_ref = some a → a ≠ "")

theorem jobWF_create (url : String) : JobWF (Job.create url) := by
  refine ⟨?_, ?_, ?_, ?_, ?_, ?_, ?_⟩ <;> simp [Job.create]

theorem jobStep_rank_mono {j j' : Job} (h : JobStep j j') :
    j.status.rank ≤ j'.status.rank := by
  cases h with
  | pickup p hq _ _ _ => simp [hq, JobStatus.rank]
  | checkpoint p hr _ _ => simp
  | fail d hr _ => simp [hr, JobStatus.rank]
  | succeed a hr _ => simp [hr, JobStatus.rank]

theorem jobStep_not_terminal {j j' : Job} (h : JobStep j j') :
    j.status.isTerminal = false := by
  cases h with
  | pickup p hq _ _ _ => simp [hq, JobStatus.isTerminal]
  | checkpoint p hr _ _ => simp [hr, JobStatus.isTerminal]
  | fail d hr _ => simp [hr, JobStatus.isTerminal]
  | succeed a hr _ => simp [hr, JobStatus.isTerminal]

theorem jobStep_progress_mono {j j' : Job} (hw : j.progress ≤ 100)
    (h : JobStep j j') : j.progress ≤ j'.progress := by
  cases h with
  | pickup p _ _ _ hle => exact hle
  | checkpoint p _ hle _ => exact hle
  | fail d _ _ => exact le_refl _
  | succeed a _ _ => exact hw

theorem jobWF_step {j j' : Job} (hw : JobWF j) (h : JobStep j j') : JobWF j' := by
  obtain ⟨h100, hq0, hc100, hed, hrr, hdne, hane⟩ := hw
  cases h with
  | pickup p hq hpos hle _ =>
    refine ⟨hle, by simp, by simp, ?_, ?_, ?_, ?_⟩ <;> simp_all [hq]
  | checkpoint p hr hle hle100 =>
    refine ⟨hle100, ?_, ?_, ?_, ?_, ?_, ?_⟩ <;> simp_all [hr]
  | fail d hr hd =>
    refine ⟨h100, by simp, by simp, by simp, ?_, ?_, ?_⟩ <;> simp_all [hr]
  | succeed a hr ha =>
    refine ⟨le_refl _, by simp, by simp, ?_, by simp, ?_, ?_⟩ <;> simp_all [hr]

theorem jobWF_reaches {j j' : Job} (hw : JobWF j) (h : Reaches j j') : JobWF j' := by
  induction h with
  | refl => exact hw
  | tail _ hs ih => exact jobWF_step ih hs

theorem reaches_rank_mono {j j' : Job} (h : Reaches j j') :
    j.status.rank ≤ j'.status.rank := by
  induction h with
  | refl => exact le_refl _
  | tail _ hs ih => exact le_trans ih (jobStep_rank_mono hs)

theorem reaches_terminal_fixed {j j' : Job} (h : Reaches j j')
    (ht : j.status.isTerminal = true) : j' = j := by
  induction h with
  | refl => rfl
  | tail hr hs ih =>
    subst ih
    have := jobStep_not_terminal hs
    rw [ht] at this
    exact absurd this (by simp)

theorem reaches_progress_mono {j j' : Job} (hw : JobWF j) (h : Reaches j j') :
    j.progress ≤ j'.progress := by
  induction h with
  | refl => exact le_refl _
  | tail hr hs ih =>
    exact le_trans ih (jobStep_progress_mono (jobWF_reaches hw hr).1 hs)

/-! ## Job Store (modelled from the spec, §4.1) -/

/-- Errors of the HTTP/API surface (spec §7). -/
inductive ApiError : Type
  | InvalidInput
  | NotFound
  | NotReady
deriving DecidableEq, Repr

/-- Modelled from the spec: the Job Store is a keyed record of job state
addressable by job id (spec §2, §4.1); embedded as an association list. -/
def JobStore : Type := List (String × Job)

/-- Store lookup: the record currently filed under an id, if any. -/
def JobStore.get (s : JobStore) (id : String) : Option Job :=
  (List.find? (fun p => p.1 == id) s).map (fun p => p.2)

/-- Point-wise update of the record filed under an id. -/
def JobStore.update (s : JobStore) (id : String) (f : Job → Job) : JobStore :=
  List.map (fun p => if p.1 == id then (p.1, f p.2) else p) s

/-- Modelled from the spec: `set_status(job_id, status, progress?, error_detail?)`
is an idempotent no-op if the job is already in a terminal state (spec §4.1). -/
def Job.set_status (j : Job) (st : JobStatus) (p : Option Nat)
    (d : Option String) : Job :=
  if j.status.isTerminal then j
  else { j with status := st
                progress := p.getD j.progress
                error_detail := match d with
                                | some x => some x
                                | none => j.error_detail }

/-- Modelled from the spec: `set_result(job_id, artifact)` persists the artifact
and completes the job in one atomic write (spec §4.1, §4.6 step 5); an
idempotent no-op if the job is already terminal. -/
def Job.set_result (j : Job) (artifact : String) : Job :=
  if j.status.isTerminal then j
  else { j with status := .complete
                progress := 100
                result_ref := some artifact }

/-- Store-level `set_status`. -/
def JobStore.set_status (s : JobStore) (id : String) (st : JobStatus)
    (p : Option Nat) (d : Option String) : JobStore :=
  s.update id (fun j => j.set_status st p d)

/-- Store-level `set_result`. -/
def JobStore.set_result (s : JobStore) (id : String) (artifact : String) : JobStore :=
  s.update id (fun j => j.set_result artifact)

theorem jobStore_get_update (s : JobStore) (id : String) (f : Job → Job) :
    (s.update id f).get id = (s.get id).map f := by
  induction s with
  | nil => rfl
  | cons p t ih =>
    by_cases h : p.1 = id
    · simp [JobStore.get, JobStore.update, List.find?_cons, h]
    · have hb : (p.1 == id) = false := beq_false_of_ne h
      simp only [JobStore.get, JobStore.update] at ih
      simp only [JobStore.get, JobStore.update, List.map_cons, List.find?_cons, hb,
        Bool.false_eq_true, if_false]
      exact ih

/-! ## API Gateway operations (modelled from the spec, §4.2, §6) -/

/-- Modelled from the spec: the API Gateway's enqueue-time URL validation —
the input string must parse as an absolute URL with an http/https scheme
(spec §4.2, §7 InvalidInput). -/
def isHttpUrl (s : String) : Bool :=
  (String.startsWith s "http://" && decide (7 < s.length))
    || (String.startsWith s "https://" && decide (8 < s.length))

/-- Modelled from the spec: `POST /clone` — validate the URL; reject with
`InvalidInput` and create no job otherwise; on success create a Job
(queued, progress 0) under a fresh id and return the id (spec §4.2, §6). -/
def enqueueClone (s : JobStore) (freshId : String) (url : String) :
    Except ApiError (String × JobStore) :=
  if isHttpUrl url then .ok (freshId, (freshId, Job.create url) :: s)
  else .error .InvalidInput

/-- Modelled from the spec: `GET /jobs/{job_id}` — the current Job record, or
`NotFound` if the id is unrecognized (spec §4.2, §6). -/
def getStatus (s : JobStore) (id : String) : Except ApiError Job :=
  match s.get id with
  | none => .error .NotFound
  | some j => .ok j

/-- Modelled from the spec: `GET /clone/{job_id}/raw` — the generated HTML once
status is complete, `NotReady` before completion, `NotFound` on an unknown id
(spec §4.2, §6, §7). -/
def getRaw (s : JobStore) (id : String) : Except ApiError String :=
  match s.get id with
  | none => .error .NotFound
  | some j =>
    match j.status, j.result_ref with
    | .complete, some a => .ok a
    | _, _ => .error .NotReady

/-! ## Synthesizer retry loop (modelled from the spec, §4.5) -/

/-- Classification of a generative-backend failure (spec §4.5, §9): transient
(rate limiting, timeouts, 5xx-class) versus non-transient (invalid request,
permanently rejected input). -/
inductive BackendFailure : Type
  | transient (cause : String)
  | permanent (cause : String)
deriving DecidableEq, Repr

/-- Outcome of one generative-backend attempt. -/
inductive SynthOutcome : Type
  | ok (html : String)
  | fail (f : BackendFailure)
deriving DecidableEq, Repr

/-- The Synthesizer's failure condition, carrying the last underlying cause
(spec §4.5, §7). -/
inductive SynthError : Type
  | SynthesisFailed (lastCause : String)
deriving DecidableEq, Repr

/-- What a full Synthesizer invocation produced: the result, the number of
backend attempts actually made, and the backoff delays slept between
attempts. -/
structure SynthResult : Type where
  result : Except SynthError String
  attempts : Nat
  delays : List Nat
deriving Repr

/-- Modelled from the spec: the Synthesizer's bounded retry loop (spec §4.5):
try the backend; success returns the HTML, a non-transient failure fails
immediately without retry, and a transient failure is retried after an
exponentially growing backoff delay (`base * 2 ^ attempt`) until the attempt
budget runs out, whereupon `SynthesisFailed` carries the last cause.  The
first argument of the recursion is the index of the next attempt, the second
the number of attempts still allowed. -/
def retrySynth (backend : Nat → SynthOutcome) (base : Nat) :
    Nat → Nat → SynthResult
  | _, 0 => ⟨.error (.SynthesisFailed "no attempts configured"), 0, []⟩
  | attempt, 1 =>
    match backend attempt with
    | .ok html => ⟨.ok html, 1, []⟩
    | .fail (.permanent c) => ⟨.error (.SynthesisFailed c), 1, []⟩
    | .fail (.transient c) => ⟨.error (.SynthesisFailed c), 1, []⟩
  | attempt, n + 2 =>
    match backend attempt with
    | .ok html => ⟨.ok html, 1, []⟩
    | .fail (.permanent c) => ⟨.error (.SynthesisFailed c), 1, []⟩
    | .fail (.transient _) =>
      let r := retrySynth backend base (attempt + 1) (n + 1)
      ⟨r.result, r.attempts + 1, base * 2 ^ attempt :: r.delays⟩

/-- Modelled from the spec: a Synthesizer invocation with the configured
attempt ceiling `maxAttempts` (spec §4.5, §6 configuration surface). -/
def synthesize (backend : Nat → SynthOutcome) (base maxAttempts : Nat) :
    SynthResult :=
  retrySynth backend base 0 maxAttempts

theorem retrySynth_all_transient (backend : Nat → SynthOutcome)
    (cause : Nat → String) (base : Nat)
    (hb : ∀ k, backend k = .fail (.transient (cause k))) :
    ∀ n a, 0 < n →
      retrySynth backend base a n =
        ⟨.error (.SynthesisFailed (cause (a + n - 1))), n,
         (List.range (n - 1)).map (fun k => base * 2 ^ (a + k))⟩ := by
  intro n
  induction n with
  | zero => intro a h; exact absurd h (by simp)
  | succ m ih =>
    intro a _
    cases m with
    | zero => simp [retrySynth, hb a]
    | succ m' =>
      have hrec := ih (a + 1) (Nat.succ_pos m')
      have e1 : a + 1 + (m' + 1) - 1 = a + (m' + 1 + 1) - 1 := by omega
      have e2 : m' + 1 - 1 = m' := by omega
      have e3 : m' + 1 + 1 - 1 = m' + 1 := by omega
      simp only [retrySynth, hb a, hrec, e1, e2, e3, SynthResult.mk.injEq,
        true_and, and_true]
      rw [List.range_succ_eq_map, List.map_cons, List.map_map]
      refine congrArg₂ _ ?_ ?_
      · rw [Nat.add_zero]
      · apply List.map_congr_left
        intro k _
        simp only [Function.comp_apply]
        have ek : a + 1 + k = a + Nat.succ k := by omega
        rw [ek]

theorem retrySynth_permanent (backend : Nat → SynthOutcome) (base a n : Nat)
    (c : String) (hb : backend a = .fail (.permanent c)) (hn : 0 < n) :
    retrySynth backend base a n = ⟨.error (.SynthesisFailed c), 1, []⟩ := by
  cases n with
  | zero => exact absurd hn (by simp)
  | succ m =>
    cases m with
    | zero => simp [retrySynth, hb]
    | succ m' => simp [retrySynth, hb]

/-! ## Frontend embedding (`frontend/src/app/page.tsx`) -/

/-- UI state of the `Page` component: the `useState` hooks `jobId`, `status`,
`progress`, `errorDetail`, `overlayOpen` (`page.tsx` lines 9–13). -/
structure UIState : Type where
  jobId : Option String
  status : String
  progress : Int
  errorDetail : String
  overlayOpen : Bool
deriving DecidableEq, Repr

/-- Initial UI state of the page: no job, status "queued", progress 0, no
error detail, overlay closed (`page.tsx` lines 9–13). -/
def UIState.initial : UIState :=
  { jobId := none
    status := "queued"
    progress := 0
    errorDetail := ""
    overlayOpen := false }

/-- One HTTP response observed by the polling effect: `ok` is `res.ok`, the
other fields the parsed JSON body of `GET /jobs/{jobId}`. -/
structure PollResponse : Type where
  ok : Bool
  status : String
  progress : Int
  detail : String
deriving DecidableEq, Repr

/-- One tick of the polling interval (`page.tsx` lines 20–39): on a non-ok
response set detail "Job not found", status "error" and clear the interval;
otherwise copy status and progress from the body, and on "error"/"complete"
record the detail / open the overlay and clear the interval.  Returns the
updated UI state and whether this tick called `clearInterval`. -/
def pollTick (ui : UIState) (r : PollResponse) : UIState × Bool :=
  if r.ok = false then
    ({ ui with errorDetail := "Job not found", status := "error" }, true)
  else
    let ui1 := { ui with status := r.status, progress := r.progress }
    let ui2 := if r.status == "error" then { ui1 with errorDetail := r.detail } else ui1
    if r.status == "error" then (ui2, true)
    else if r.status == "complete" then ({ ui2 with overlayOpen := true }, true)
    else (ui2, false)

/-- The polling loop: processes successive responses until a tick clears the
interval; returns the final UI state and how many status requests were
issued. -/
def pollLoop (ui : UIState) : List PollResponse → UIState × Nat
  | [] => (ui, 0)
  | r :: rs =>
    let t := pollTick ui r
    if t.2 then (t.1, 1)
    else
      let rest := pollLoop t.1 rs
      (rest.1, rest.2 + 1)

/-- The polling effect runs only when `jobId` is non-null
(`page.tsx` line 19: `if (!jobId) return`). -/
def pollingActive (ui : UIState) : Bool := ui.jobId.isSome

/-- The submit handler (`page.tsx` lines 44–68) as the sequence of rendered UI
states: on a `new URL` parse failure only the validation message is set; on
success the state at the await of `POST /clone` (after the batched
`setErrorDetail("")`, `setStatus("running")`, `setProgress(0)`), then the
state after the response is handled.  `urlParses` is whether `new URL(url)`
succeeded; `respOk`/`respJobId` describe the enqueue response. -/
def onSubmit (ui : UIState) (urlParses : Bool) (respOk : Bool)
    (respJobId : String) : List UIState :=
  if urlParses = false then
    [{ ui with errorDetail := "Please enter a valid URL, e.g. https://example.com" }]
  else
    let pre := { ui with errorDetail := "", status := "running", progress := 0 }
    if respOk = false then
      [pre, { pre with status := "error", errorDetail := "Failed to enqueue clone job." }]
    else
      [pre, { pre with jobId := some respJobId }]

/-! ## Concrete example jobs and stores -/

/-- A freshly enqueued job for `https://example.com`. -/
def exampleQueued : Job := Job.create "https://example.com"

/-- The same job after task pickup (running, progress 10). -/
def exampleRunning : Job :=
  { exampleQueued with status := .running, progress := 10 }

/-- The artifact of the example job. -/
def exampleArtifact : String := "<html><body>cloned</body></html>"

/-- The same job after synthesis success (complete, progress 100). -/
def exampleDone : Job :=
  { exampleRunning with
    status := .complete
    progress := 100
    result_ref := some exampleArtifact }

/-- The same job had scraping failed instead (error, detail set). -/
def exampleFailed : Job :=
  { exampleRunning with
    status := .error
    error_detail := some "ScrapeFailed: navigation timeout" }

theorem exampleReaches : Reaches exampleQueued exampleRunning :=
  Reaches.tail (Reaches.refl _)
    (JobStep.pickup exampleQueued 10 rfl (by decide) (by decide) (by decide))

theorem exampleReachesDone : Reaches exampleQueued exampleDone :=
  Reaches.tail exampleReaches
    (JobStep.succeed exampleRunning exampleArtifact rfl (by decide))

theorem exampleReachesFailed : Reaches exampleQueued exampleFailed :=
  Reaches.tail exampleReaches
    (JobStep.fail exampleRunning "ScrapeFailed: navigation timeout" rfl (by decide))

/-- A store holding the completed example job. -/
def exampleStoreDone : JobStore := [("job-1", exampleDone)]

/-- A store holding the errored example job. -/
def exampleStoreFailed : JobStore := [("job-2", exampleFailed)]

/-! ## The claims -/

/-- C1: for a single job, successive status polls observe states in the fixed
order queued → running → terminal (complete or error): across any run of
orchestrator steps the status rank never decreases, and a job that has
reached a terminal state never transitions to any other state. -/
theorem claim_c1_status_order {j j' : Job} (h : Reaches j j') :
    j.status.rank ≤ j'.status.rank
    ∧ (j.status.isTerminal = true → j' = j) :=
  ⟨reaches_rank_mono h, fun ht => reaches_terminal_fixed h ht⟩

theorem claim_c1_status_order_witness :
    exampleQueued.status.rank ≤ exampleRunning.status.rank
    ∧ (exampleQueued.status.isTerminal = true → exampleRunning = exampleQueued) :=
  claim_c1_status_order exampleReaches

/-- C2: for every job, progress is an integer in 0–100, monotonically
non-decreasing across successive status polls, and equals 100 once the
status is complete. -/
theorem claim_c2_progress (url : String) {j j' : Job}
    (h : Reaches (Job.create url) j) (h' : Reaches j j') :
    j.progress ≤ 100 ∧ j'.progress ≤ 100
    ∧ j.progress ≤ j'.progress
    ∧ (j'.status = .complete → j'.progress = 100) := by
  have hw := jobWF_reaches (jobWF_create url) h
  have hw' := jobWF_reaches hw h'
  exact ⟨hw.1, hw'.1, reaches_progress_mono hw h', hw'.2.2.1⟩

theorem claim_c2_progress_witness :
    exampleQueued.progress ≤ 100 ∧ exampleDone.progress ≤ 100
    ∧ exampleQueued.progress ≤ exampleDone.progress
    ∧ (exampleDone.status = .complete → exampleDone.progress = 100) :=
  claim_c2_progress "https://example.com" (Reaches.refl _) exampleReachesDone

/-- C3: once a job is in a terminal state, `set_status` and `set_result` are
idempotent no-ops: the record itself is unchanged, and the record a status
poll returns from the store is identical before and after the call. -/
theorem claim_c3_terminal_write_once (s : JobStore) (id : String) (j : Job)
    (hg : s.get id = some j) (ht : j.status.isTerminal = true)
    (st : JobStatus) (p : Option Nat) (d : Option String) (a : String) :
    j.set_status st p d = j
    ∧ j.set_result a = j
    ∧ (s.set_status id st p d).get id = some j
    ∧ (s.set_result id a).get id = some j := by
  have hs : j.set_status st p d = j := by simp [Job.set_status, ht]
  have hr : j.set_result a = j := by simp [Job.set_result, ht]
  refine ⟨hs, hr, ?_, ?_⟩
  · rw [JobStore.set_status, jobStore_get_update, hg]
    exact congrArg some hs
  · rw [JobStore.set_result, jobStore_get_update, hg]
    exact congrArg some hr

theorem claim_c3_terminal_write_once_witness :
    exampleDone.set_status .running (some 5) none = exampleDone
    ∧ exampleDone.set_result "<html>other</html>" = exampleDone
    ∧ (exampleStoreDone.set_status "job-1" .running (some 5) none).get "job-1"
        = some exampleDone
    ∧ (exampleStoreDone.set_result "job-1" "<html>other</html>").get "job-1"
        = some exampleDone :=
  claim_c3_terminal_write_once exampleStoreDone "job-1" exampleDone rfl rfl
    .running (some 5) none "<html>other</html>"

/-- C4: exactly one of error_detail / result_ref is populated, and only once
the status is terminal: error_detail is present iff status = error (and is
then non-empty), result_ref is present iff status = complete, and an errored
job has no retrievable raw result from any store that holds it. -/
theorem claim_c4_terminal_fields (url : String) {j : Job}
    (h : Reaches (Job.create url) j) :
    (j.error_detail.isSome ↔ j.status = .error)
    ∧ (j.result_ref.isSome ↔ j.status = .complete)
    ∧ (j.status.isTerminal = false → j.error_detail = none ∧ j.result_ref = none)
    ∧ (j.status = .error →
        (∀ d, j.error_detail = some d → d ≠ "")
        ∧ j.result_ref = none
        ∧ ∀ (s : JobStore) (id : String), s.get id = some j →
            ∀ a, getRaw s id ≠ .ok a) := by
  have hw := jobWF_reaches (jobWF_create url) h
  obtain ⟨h100, hq0, hc100, hed, hrr, hdne, hane⟩ := hw
  refine ⟨hed, hrr, ?_, ?_⟩
  · intro hnt
    constructor
    · rcases he : j.error_detail with _ | d
      · rfl
      · have : j.status = .error := hed.mp (by simp [he])
        rw [this] at hnt
        exact absurd hnt (by simp [JobStatus.isTerminal])
    · rcases hrf : j.result_ref with _ | a
      · rfl
      · have : j.status = .complete := hrr.mp (by simp [hrf])
        rw [this] at hnt
        exact absurd hnt (by simp [JobStatus.isTerminal])
  · intro herr
    have hrnone : j.result_ref = none := by
      rcases hrf : j.result_ref with _ | a
      · rfl
      · have : j.status = .complete := hrr.mp (by simp [hrf])
        rw [this] at herr
        exact absurd herr (by simp)
    refine ⟨hdne, hrnone, ?_⟩
    intro s id hg a
    simp [getRaw, hg, herr, hrnone]

theorem claim_c4_terminal_fields_witness :
    (exampleFailed.error_detail.isSome ↔ exampleFailed.status = .error)
    ∧ (exampleFailed.result_ref.isSome ↔ exampleFailed.status = .complete)
    ∧ (exampleFailed.status.isTerminal = false →
        exampleFailed.error_detail = none ∧ exampleFailed.result_ref = none)
    ∧ (exampleFailed.status = .error →
        (∀ d, exampleFailed.error_detail = some d → d ≠ "")
        ∧ exampleFailed.result_ref = none
        ∧ ∀ (s : JobStore) (id : String), s.get id = some exampleFailed →
            ∀ a, getRaw s id ≠ .ok a) :=
  claim_c4_terminal_fields "https://example.com" exampleReachesFailed

/-- C5: enqueue creates a job if and only if the input string parses as an
absolute http/https URL; any other input is rejected synchronously with
InvalidInput, no job is created and no job id is returned. -/
theorem claim_c5_enqueue_validation (s : JobStore) (freshId url : String) :
    ((∃ r, enqueueClone s freshId url = .ok r) ↔ isHttpUrl url = true)
    ∧ (isHttpUrl url = false → enqueueClone s freshId url = .error .InvalidInput)
    ∧ (isHttpUrl url = true →
        enqueueClone s freshId url = .ok (freshId, (freshId, Job.create url) :: s)
        ∧ JobStore.get ((freshId, Job.create url) :: s) freshId
            = some (Job.create url)) := by
  by_cases hv : isHttpUrl url = true
  · have hok : enqueueClone s freshId url
        = .ok (freshId, (freshId, Job.create url) :: s) := by
      simp [enqueueClone, hv]
    refine ⟨⟨fun _ => hv, fun _ => ⟨_, hok⟩⟩, ?_, fun _ => ⟨hok, ?_⟩⟩
    · intro hf; rw [hv] at hf; exact absurd hf (by simp)
    · simp [JobStore.get, List.find?_cons]
  · have hv' : isHttpUrl url = false := by
      cases h : isHttpUrl url
      · rfl
      · exact absurd h hv
    have herr : enqueueClone s freshId url = .error .InvalidInput := by
      simp [enqueueClone, hv']
    refine ⟨⟨?_, fun h => absurd h hv⟩, fun _ => herr, fun h => absurd h hv⟩
    rintro ⟨r, hr⟩
    rw [herr] at hr
    exact absurd hr (by simp)

theorem claim_c5_enqueue_validation_witness :
    ((∃ r, enqueueClone [] "job-1" "not-a-url" = .ok r)
        ↔ isHttpUrl "not-a-url" = true)
    ∧ (isHttpUrl "not-a-url" = false →
        enqueueClone [] "job-1" "not-a-url" = .error .InvalidInput)
    ∧ (isHttpUrl "not-a-url" = true →
        enqueueClone [] "job-1" "not-a-url"
          = .ok ("job-1", [("job-1", Job.create "not-a-url")])
        ∧ JobStore.get [("job-1", Job.create "not-a-url")] "job-1"
            = some (Job.create "not-a-url")) :=
  claim_c5_enqueue_validation [] "job-1" "not-a-url"

/-- C6: the raw-result fetch succeeds exactly when the job's status is
complete, a completed job's raw result is non-empty, and any other status
yields a non-2xx NotReady indication. -/
theorem claim_c6_raw_result (url : String) (s : JobStore) (id : String)
    {j : Job} (hg : s.get id = some j) (hr : Reaches (Job.create url) j) :
    ((∃ a, getRaw s id = .ok a) ↔ j.status = .complete)
    ∧ (∀ a, getRaw s id = .ok a → a ≠ "")
    ∧ (j.status ≠ .complete → getRaw s id = .error .NotReady) := by
  have hw := jobWF_reaches (jobWF_create url) hr
  obtain ⟨h100, hq0, hc100, hed, hrr, hdne, hane⟩ := hw
  have hget : getRaw s id = (match j.status, j.result_ref with
      | .complete, some a => .ok a
      | _, _ => .error .NotReady) := by
    rw [getRaw, hg]
  by_cases hc : j.status = .complete
  · rcases hra : j.result_ref with _ | a
    · rw [hra] at hrr; simp [hc] at hrr
    · have hok : getRaw s id = .ok a := by rw [hget, hc, hra]
      refine ⟨⟨fun _ => hc, fun _ => ⟨a, hok⟩⟩, ?_, fun h => absurd hc h⟩
      intro b hb
      rw [hok] at hb
      injection hb with hb
      rw [← hb]
      exact hane a hra
  · have hnr : getRaw s id = .error .NotReady := by
      rw [hget]
      cases hst : j.status <;> cases hrb : j.result_ref <;>
        first
        | rfl
        | exact absurd hst hc
    refine ⟨⟨?_, fun h => absurd h hc⟩, ?_, fun _ => hnr⟩
    · rintro ⟨b, hb⟩
      rw [hnr] at hb
      exact absurd hb (by simp)
    · intro b hb
      rw [hnr] at hb
      exact absurd hb (by simp)

theorem claim_c6_raw_result_witness :
    ((∃ a, getRaw exampleStoreDone "job-1" = .ok a)
        ↔ exampleDone.status = .complete)
    ∧ (∀ a, getRaw exampleStoreDone "job-1" = .ok a → a ≠ "")
    ∧ (exampleDone.status ≠ .complete →
        getRaw exampleStoreDone "job-1" = .error .NotReady) :=
  claim_c6_raw_result "https://example.com" exampleStoreDone "job-1" rfl
    exampleReachesDone

/-- C7: when every backend attempt fails transiently, the Synthesizer retries
with exponentially growing backoff delays and stops after exactly the
configured attempt ceiling, surfacing SynthesisFailed with the last
underlying cause; a non-transient failure fails on the first attempt with no
retry and no backoff. -/
theorem claim_c7_retry_policy (backend : Nat → SynthOutcome)
    (cause : Nat → String) (base n : Nat) (hn : 0 < n) :
    ((∀ k, backend k = .fail (.transient (cause k))) →
      synthesize backend base n =
        ⟨.error (.SynthesisFailed (cause (n - 1))), n,
         (List.range (n - 1)).map (fun k => base * 2 ^ k)⟩)
    ∧ (∀ c, backend 0 = .fail (.permanent c) →
      synthesize backend base n = ⟨.error (.SynthesisFailed c), 1, []⟩) := by
  constructor
  · intro hb
    have h := retrySynth_all_transient backend cause base hb n 0 hn
    rw [synthesize, h]
    have e : 0 + n - 1 = n - 1 := by omega
    rw [e]
    refine congrArg _ ?_
    apply List.map_congr_left
    intro k _
    rw [Nat.zero_add]
  · intro c hb
    exact retrySynth_permanent backend base 0 n c hb hn

theorem claim_c7_retry_policy_witness :
    synthesize (fun _ => .fail (.transient "rate limited")) 1 3 =
      ⟨.error (.SynthesisFailed "rate limited"), 3,
       (List.range 2).map (fun k => 1 * 2 ^ k)⟩ :=
  (claim_c7_retry_policy (fun _ => .fail (.transient "rate limited"))
    (fun _ => "rate limited") 1 3 (by decide)).1 (fun _ => rfl)

/-- C8: the status lookup returns NotFound exactly on job ids absent from the
Job Store, and returns the current job record for every known id. -/
theorem claim_c8_status_lookup (s : JobStore) (id : String) :
    (getStatus s id = .error .NotFound ↔ s.get id = none)
    ∧ (∀ j, s.get id = some j → getStatus s id = .ok j) := by
  refine ⟨⟨?_, ?_⟩, ?_⟩
  · intro h
    cases hg : JobStore.get s id with
    | none => rfl
    | some j =>
      have hok : getStatus s id = .ok j := by rw [getStatus, hg]
      rw [hok] at h
      exact absurd h (by simp)
  · intro h
    rw [getStatus, h]
  · intro j hj
    rw [getStatus, hj]

theorem claim_c8_status_lookup_witness :
    (getStatus exampleStoreDone "unused-id" = .error .NotFound
        ↔ exampleStoreDone.get "unused-id" = none)
    ∧ (∀ j, exampleStoreDone.get "unused-id" = some j →
        getStatus exampleStoreDone "unused-id" = .ok j) :=
  claim_c8_status_lookup exampleStoreDone "unused-id"

/-- C9: once a status poll observes "complete" or "error", or receives any
non-2xx response, the polling interval is cleared and no further status
requests are issued for that job; every non-2xx poll response is rendered as
a terminal error with the fixed detail text "Job not found". -/
theorem claim_c9_poll_termination (ui : UIState) (r : PollResponse)
    (rs : List PollResponse) :
    ((pollTick ui r).2
        = (!r.ok || (r.status == "complete") || (r.status == "error")))
    ∧ (r.ok = false →
        (pollTick ui r).1.status = "error"
        ∧ (pollTick ui r).1.errorDetail = "Job not found")
    ∧ ((pollTick ui r).2 = true →
        pollLoop ui (r :: rs) = ((pollTick ui r).1, 1)) := by
  refine ⟨?_, ?_, ?_⟩
  · rcases r with ⟨_ | _, st, pr, dt⟩
    · rfl
    · by_cases he : st = "error"
      · simp [pollTick, he]
      · by_cases hcp : st = "complete"
        · simp [pollTick, hcp]
        · simp [pollTick, he, hcp]
  · intro hok
    simp [pollTick, hok]
  · intro hcl
    rw [pollLoop]
    simp only [hcl, if_true]

theorem claim_c9_poll_termination_witness :
    ((pollTick UIState.initial ⟨false, "running", 50, ""⟩).2
        = (!(false : Bool) || (("running" : String) == "complete")
            || (("running" : String) == "error")))
    ∧ ((false : Bool) = false →
        (pollTick UIState.initial ⟨false, "running", 50, ""⟩).1.status = "error"
        ∧ (pollTick UIState.initial ⟨false, "running", 50, ""⟩).1.errorDetail
            = "Job not found")
    ∧ ((pollTick UIState.initial ⟨false, "running", 50, ""⟩).2 = true →
        pollLoop UIState.initial
            (⟨false, "running", 50, ""⟩ :: [⟨true, "running", 60, ""⟩])
          = ((pollTick UIState.initial ⟨false, "running", 50, ""⟩).1, 1)) :=
  claim_c9_poll_termination UIState.initial ⟨false, "running", 50, ""⟩
    [⟨true, "running", 60, ""⟩]

/-- C10: after a submit whose URL parses with new URL, the displayed status is
"running" with progress 0 before the enqueue response arrives and no rendered
state shows "queued"; a non-2xx enqueue response makes the final state an
error with detail "Failed to enqueue clone job." while jobId is unchanged, so
with no prior job id polling never becomes active. -/
theorem claim_c10_submit (ui : UIState) (respOk : Bool) (respJobId : String) :
    ∃ pre fin, onSubmit ui true respOk respJobId = [pre, fin]
    ∧ pre.status = "running" ∧ pre.progress = 0
    ∧ pre.status ≠ "queued" ∧ fin.status ≠ "queued"
    ∧ (respOk = false →
        fin.status = "error"
        ∧ fin.errorDetail = "Failed to enqueue clone job."
        ∧ fin.jobId = ui.jobId
        ∧ (ui.jobId = none → pollingActive fin = false))
    ∧ (respOk = true → fin.jobId = some respJobId) := by
  cases respOk with
  | false =>
    refine ⟨_, _, rfl, rfl, rfl, by intro h; simp at h, by intro h; simp at h,
      ?_, ?_⟩
    · intro _
      refine ⟨rfl, rfl, rfl, ?_⟩
      intro hn
      simp [pollingActive, hn]
    · intro h; exact absurd h (by simp)
  | true =>
    refine ⟨_, _, rfl, rfl, rfl, by intro h; simp at h, by intro h; simp at h,
      ?_, fun _ => rfl⟩
    intro h; exact absurd h (by simp)

theorem claim_c10_submit_witness :
    ∃ pre fin, onSubmit UIState.initial true false "job-1" = [pre, fin]
    ∧ pre.status = "running" ∧ pre.progress = 0
    ∧ pre.status ≠ "queued" ∧ fin.status ≠ "queued"
    ∧ (false = false →
        fin.status = "error"
        ∧ fin.errorDetail = "Failed to enqueue clone job."
        ∧ fin.jobId = UIState.initial.jobId
        ∧ (UIState.initial.jobId = none → pollingActive fin = false))
    ∧ (false = true → fin.jobId = some "job-1") :=
  claim_c10_submit UIState.initial false "job-1"
